import Mathlib

set_option maxHeartbeats 1000000

/-!
Shallow embedding of `internal/proxy/proxy.go` (the Milvus proxy lifecycle
controller).  Each lifecycle function of the Go source is translated into a
Lean function that returns the ordered list of observable steps (`Event`s) it
performs, together with its result.  Nondeterminism of the environment
(whether the master dials, whether a constructor fails, whether the listener
binds, how many callbacks were registered, whether a component fails to close
cleanly) is captured by an explicit `Env` record; each Lean function branches
on those flags exactly where the Go code branches on the corresponding error.

Contexts are modelled as natural numbers: `CreateProxy` receives a parent
context `parent` and derives the cancellable proxy-loop context
`loopCtx parent`; every event that the Go code performs with an explicit
`context.Context` argument records which context it was given.
-/

/-- The components owned by the `Proxy` struct that have `Start`/`Close`
methods invoked by the lifecycle code. -/
inductive Comp
  | manipulationMsgStream
  | queryMsgStream
  | sched
  | idAllocator
  | tsoAllocator
  | segAssigner
  deriving DecidableEq

/-- One observable step of the proxy lifecycle code, in the order the Go
statements execute.  `closeMasterConn` is the step the Go source never
performs (there is no `masterConn.Close()` anywhere in `proxy.go`); it is
included so that its absence can be stated. -/
inductive Event
  | seedRandom
  | withCancel (parent child : Nat)
  | newPulsarMsgStream (c : Comp) (ctx : Nat)
  | setPulsarClient (c : Comp)
  | createPulsarProducers (c : Comp) (channels : List String)
  | newIDAllocator (ctx : Nat)
  | newTimestampAllocator (ctx : Nat)
  | newSegIDAssigner (ctx : Nat)
  | newTaskScheduler (ctx : Nat)
  | dialMaster (blocking : Bool) (timeoutSeconds : Nat)
  | logConnectFailed
  | setMasterClient
  | initGlobalMetaCache (ctx : Nat)
  | startComp (c : Comp)
  | startCallback (i : Nat)
  | wgAdd
  | spawnGrpcLoop
  | netListen (addr : String)
  | logFatal
  | newGrpcServer
  | registerMilvusService
  | grpcServe
  | cancelLoopCtx (ctx : Nat)
  | gracefulStop
  | closeComp (c : Comp)
  | closeMasterConn
  | wgWait
  | closeCallback (i : Nat)
  | logProxyClosed
  deriving DecidableEq

/-- The environment a lifecycle run executes in: which fallible calls fail,
whether the gRPC server field is non-nil at shutdown, and how many
start/close callbacks were registered via `AddStartCallback` /
`AddCloseCallback`.  The six `...CloseFails` flags record whether a
component's own `Close` fails to close cleanly; `proxy.go` invokes each
`Close()` as a bare statement and never observes such a failure, so no
lifecycle trace below depends on them. -/
structure Env where
  connectMasterFails : Bool
  newIDAllocatorFails : Bool
  newTimestampAllocatorFails : Bool
  newSegIDAssignerFails : Bool
  newTaskSchedulerFails : Bool
  listenFails : Bool
  serveFails : Bool
  grpcServerStarted : Bool
  startCallbackCount : Nat
  closeCallbackCount : Nat
  tsoAllocatorCloseFails : Bool
  idAllocatorCloseFails : Bool
  segAssignerCloseFails : Bool
  schedCloseFails : Bool
  manipulationStreamCloseFails : Bool
  queryStreamCloseFails : Bool

/-- The cancellable proxy-loop context derived from `parent` by
`context.WithCancel(ctx)` in `CreateProxy`. -/
def loopCtx (parent : Nat) : Nat := parent + 1

/-- Result of `CreateProxy`: a successful `(*Proxy, nil)` return, a
`(nil, err)` return, or a `panic`. -/
inductive CreateResult
  | ok
  | errReturn
  | panicked
  deriving DecidableEq

/-- `manipulationChannels := []string{"manipulation"}` in `CreateProxy`. -/
def manipulationChannels : List String := ["manipulation"]

/-- `queryChannels := []string{"query"}` in `CreateProxy`. -/
def queryChannels : List String := ["query"]

/-- The construction steps of `CreateProxy` that precede the first fallible
constructor, ending with the `NewIDAllocator` call itself. -/
def createPrefix (parent : Nat) : List Event :=
  [Event.seedRandom,
   Event.withCancel parent (loopCtx parent),
   Event.newPulsarMsgStream Comp.manipulationMsgStream (loopCtx parent),
   Event.setPulsarClient Comp.manipulationMsgStream,
   Event.createPulsarProducers Comp.manipulationMsgStream manipulationChannels,
   Event.newPulsarMsgStream Comp.queryMsgStream (loopCtx parent),
   Event.setPulsarClient Comp.queryMsgStream,
   Event.createPulsarProducers Comp.queryMsgStream queryChannels,
   Event.newIDAllocator (loopCtx parent)]

/-- `CreateProxy(ctx)`: seeds the RNG, derives the cancellable loop context,
builds both Pulsar message streams with their producers, then constructs the
identifier allocator, timestamp allocator, segment-identifier assigner and
task scheduler in that order.  A failing identifier/timestamp
allocator or scheduler constructor returns `(nil, err)`; a failing
segment-assigner constructor panics. -/
def CreateProxy (parent : Nat) (e : Env) : List Event × CreateResult :=
  let t0 := createPrefix parent
  if e.newIDAllocatorFails then (t0, CreateResult.errReturn)
  else
    let t1 := t0 ++ [Event.newTimestampAllocator (loopCtx parent)]
    if e.newTimestampAllocatorFails then (t1, CreateResult.errReturn)
    else
      let t2 := t1 ++ [Event.newSegIDAssigner (loopCtx parent)]
      if e.newSegIDAssignerFails then (t2, CreateResult.panicked)
      else
        let t3 := t2 ++ [Event.newTaskScheduler (loopCtx parent)]
        if e.newTaskSchedulerFails then (t3, CreateResult.errReturn)
        else (t3, CreateResult.ok)

/-- `connectMaster`: a blocking dial (`grpc.WithBlock()`) under a
`context.WithTimeout(..., 10*time.Second)` deadline; on failure it logs and
returns the error, on success it stores the connection and master client. -/
def connectMaster (e : Env) : List Event × Except Unit Unit :=
  if e.connectMasterFails then
    ([Event.dialMaster true 10, Event.logConnectFailed], Except.error ())
  else
    ([Event.dialMaster true 10, Event.setMasterClient], Except.ok ())

/-- The order in which `startProxy` invokes the components' `Start` methods. -/
def startComps : List Comp :=
  [Comp.manipulationMsgStream, Comp.queryMsgStream, Comp.sched,
   Comp.idAllocator, Comp.tsoAllocator, Comp.segAssigner]

/-- `startProxy`: connect to master (returning its error on failure), warm
the global metadata cache, start both message streams, the scheduler and the
three allocators, run the registered start callbacks in order, then add to
the wait group and launch `grpcLoop` in a background goroutine, returning
nil. -/
def startProxy (parent : Nat) (e : Env) : List Event × Except Unit Unit :=
  match connectMaster e with
  | (tc, Except.error u) => (tc, Except.error u)
  | (tc, Except.ok _) =>
    (tc ++ [Event.initGlobalMetaCache (loopCtx parent)]
        ++ startComps.map Event.startComp
        ++ (List.range e.startCallbackCount).map Event.startCallback
        ++ [Event.wgAdd, Event.spawnGrpcLoop],
     Except.ok ())

/-- `Start` simply delegates to `startProxy`. -/
def Start (parent : Nat) (e : Env) : List Event × Except Unit Unit :=
  startProxy parent e

/-- How the background `grpcLoop` goroutine terminates: by `log.Fatalf`
(which exits the whole process) or by `Serve` returning cleanly after a
graceful stop. -/
inductive GrpcExit
  | fatalExit
  | stopped
  deriving DecidableEq

/-- `grpcLoop` (run in a background goroutine): listen on the hard-coded
address ":5053" (`log.Fatalf` on failure), build the gRPC server, register
the Milvus service, and serve (`log.Fatalf` if `Serve` returns an error). -/
def grpcLoop (e : Env) : List Event × GrpcExit :=
  let t0 := [Event.netListen ":5053"]
  if e.listenFails then (t0 ++ [Event.logFatal], GrpcExit.fatalExit)
  else
    let t1 := t0 ++ [Event.newGrpcServer, Event.registerMilvusService, Event.grpcServe]
    if e.serveFails then (t1 ++ [Event.logFatal], GrpcExit.fatalExit)
    else (t1, GrpcExit.stopped)

/-- The order in which `stopProxyLoop` invokes the components' `Close`
methods. -/
def closeComps : List Comp :=
  [Comp.tsoAllocator, Comp.idAllocator, Comp.segAssigner, Comp.sched,
   Comp.manipulationMsgStream, Comp.queryMsgStream]

/-- `stopProxyLoop`: cancel the shared loop context, gracefully stop the
gRPC server if it was created, close the timestamp allocator, identifier
allocator, segment assigner, scheduler and both message streams in that
order, then wait on the wait group. -/
def stopProxyLoop (parent : Nat) (e : Env) : List Event :=
  [Event.cancelLoopCtx (loopCtx parent)]
    ++ (if e.grpcServerStarted then [Event.gracefulStop] else [])
    ++ closeComps.map Event.closeComp
    ++ [Event.wgWait]

/-- `Close`: run `stopProxyLoop`, then run the registered close callbacks in
order, then log "proxy closed.". -/
def Close (parent : Nat) (e : Env) : List Event :=
  stopProxyLoop parent e
    ++ (List.range e.closeCallbackCount).map Event.closeCallback
    ++ [Event.logProxyClosed]

/-- The context argument an event was given, for events that the Go code
performs with an explicit `context.Context` argument. -/
def ctxArg : Event → Option Nat
  | Event.newPulsarMsgStream _ c => some c
  | Event.newIDAllocator c => some c
  | Event.newTimestampAllocator c => some c
  | Event.newSegIDAssigner c => some c
  | Event.newTaskScheduler c => some c
  | Event.initGlobalMetaCache c => some c
  | _ => none

/-- Whether an event is a start-callback invocation. -/
def isStartCallback : Event → Bool
  | Event.startCallback _ => true
  | _ => false

/-- Whether an event is a close-callback invocation. -/
def isCloseCallback : Event → Bool
  | Event.closeCallback _ => true
  | _ => false

/-- Whether an event is a dial of the master connection. -/
def isDialMaster : Event → Bool
  | Event.dialMaster _ _ => true
  | _ => false

/-- A convenient fully-successful environment with one registered start
callback and one registered close callback. -/
def envOk : Env :=
  { connectMasterFails := false
    newIDAllocatorFails := false
    newTimestampAllocatorFails := false
    newSegIDAssignerFails := false
    newTaskSchedulerFails := false
    listenFails := false
    serveFails := false
    grpcServerStarted := true
    startCallbackCount := 1
    closeCallbackCount := 1
    tsoAllocatorCloseFails := false
    idAllocatorCloseFails := false
    segAssignerCloseFails := false
    schedCloseFails := false
    manipulationStreamCloseFails := false
    queryStreamCloseFails := false }

/-- `envOk` with the master connection failing. -/
def envConnFail : Env :=
  { envOk with connectMasterFails := true }

example : (startProxy 0 envOk).2 = Except.ok () := rfl

example : (startProxy 0 envConnFail).2 = Except.error () := rfl

/-- `envOk` with the segment-assigner constructor failing. -/
def envSegFail : Env :=
  { envOk with newSegIDAssignerFails := true }

/-- `envOk` with the listener bind failing. -/
def envListenFail : Env :=
  { envOk with listenFails := true }

/-- `envConnFail` additionally with the listener bind failing. -/
def envConnListenFail : Env :=
  { envOk with connectMasterFails := true, listenFails := true }

theorem startProxy_ok_iff (parent : Nat) (e : Env) :
    (startProxy parent e).2 = Except.ok () ↔ e.connectMasterFails = false := by
  cases h : e.connectMasterFails <;> simp [startProxy, connectMaster, h]

/-- The trace of a successful `startProxy` run, as one append of its
fixed prefix, the start-callback block and the goroutine launch. -/
theorem startProxy_trace (parent : Nat) (e : Env)
    (hc : e.connectMasterFails = false) :
    (startProxy parent e).1 =
      [Event.dialMaster true 10, Event.setMasterClient,
       Event.initGlobalMetaCache (loopCtx parent),
       Event.startComp Comp.manipulationMsgStream,
       Event.startComp Comp.queryMsgStream,
       Event.startComp Comp.sched,
       Event.startComp Comp.idAllocator,
       Event.startComp Comp.tsoAllocator,
       Event.startComp Comp.segAssigner]
      ++ (List.range e.startCallbackCount).map Event.startCallback
      ++ [Event.wgAdd, Event.spawnGrpcLoop] := by
  simp [startProxy, connectMaster, hc, startComps]

/-- Claim C1: for every successful invocation of `Start`, the startup steps
occur in this order: the master (authority) connection is established first,
then the global metadata cache is warmed, then the manipulation and query
message streams are started, then the task scheduler is started, then the
identifier, timestamp and segment allocators are started, and the
request-accepting gRPC endpoint is launched last. -/
theorem C1_startup_order (parent : Nat) (e : Env)
    (h : (Start parent e).2 = Except.ok ()) :
    List.Sublist
      [Event.dialMaster true 10,
       Event.initGlobalMetaCache (loopCtx parent),
       Event.startComp Comp.manipulationMsgStream,
       Event.startComp Comp.queryMsgStream,
       Event.startComp Comp.sched,
       Event.startComp Comp.idAllocator,
       Event.startComp Comp.tsoAllocator,
       Event.startComp Comp.segAssigner,
       Event.spawnGrpcLoop]
      (Start parent e).1 := by
  have hc : e.connectMasterFails = false := (startProxy_ok_iff parent e).mp h
  show List.Sublist _ (startProxy parent e).1
  rw [startProxy_trace parent e hc]
  have h1 : List.Sublist
      [Event.dialMaster true 10,
       Event.initGlobalMetaCache (loopCtx parent),
       Event.startComp Comp.manipulationMsgStream,
       Event.startComp Comp.queryMsgStream,
       Event.startComp Comp.sched,
       Event.startComp Comp.idAllocator,
       Event.startComp Comp.tsoAllocator,
       Event.startComp Comp.segAssigner]
      ([Event.dialMaster true 10, Event.setMasterClient,
        Event.initGlobalMetaCache (loopCtx parent),
        Event.startComp Comp.manipulationMsgStream,
        Event.startComp Comp.queryMsgStream,
        Event.startComp Comp.sched,
        Event.startComp Comp.idAllocator,
        Event.startComp Comp.tsoAllocator,
        Event.startComp Comp.segAssigner]
       ++ (List.range e.startCallbackCount).map Event.startCallback) :=
    (List.Sublist.cons₂ _ (List.Sublist.cons _ (List.Sublist.refl _))).trans
      (List.sublist_append_left _ _)
  have h2 : List.Sublist [Event.spawnGrpcLoop] [Event.wgAdd, Event.spawnGrpcLoop] :=
    List.Sublist.cons _ (List.Sublist.refl _)
  exact h1.append h2

/-- Claim C2 counterexample: in the code, `stopProxyLoop` cancels the shared
context before it stops accepting new requests (`GracefulStop`), and it waits
on the wait group only after the component closes, so the order the claim
states (stop accepting first, then cancel; wait before closing the
allocators) does not hold on the concrete run `Close 0 envOk`. -/
theorem C2_counterexample :
    ¬ List.Sublist [Event.gracefulStop, Event.cancelLoopCtx (loopCtx 0)]
        (Close 0 envOk) ∧
    ¬ List.Sublist [Event.wgWait, Event.closeComp Comp.tsoAllocator]
        (Close 0 envOk) := by
  decide

/-- Claim C2 (amended): for every invocation of `Close` on a started proxy,
the shutdown steps occur in this order: first the shared cancellation context
is cancelled, then the server stops accepting new requests (graceful stop),
then the allocators are closed (timestamp, identifier, segment), then the
scheduler, then the message-bus producers (manipulation and query streams),
then the wait for outstanding background routines, and only then are the
registered close callbacks invoked. -/
theorem C2_shutdown_order (parent : Nat) (e : Env)
    (hg : e.grpcServerStarted = true) :
    List.Sublist
      [Event.cancelLoopCtx (loopCtx parent), Event.gracefulStop,
       Event.closeComp Comp.tsoAllocator, Event.closeComp Comp.idAllocator,
       Event.closeComp Comp.segAssigner, Event.closeComp Comp.sched,
       Event.closeComp Comp.manipulationMsgStream,
       Event.closeComp Comp.queryMsgStream, Event.wgWait]
      (Close parent e) ∧
    (∀ i, i < e.closeCallbackCount →
      List.Sublist [Event.wgWait, Event.closeCallback i] (Close parent e)) := by
  have hs : stopProxyLoop parent e =
      [Event.cancelLoopCtx (loopCtx parent), Event.gracefulStop,
       Event.closeComp Comp.tsoAllocator, Event.closeComp Comp.idAllocator,
       Event.closeComp Comp.segAssigner, Event.closeComp Comp.sched,
       Event.closeComp Comp.manipulationMsgStream,
       Event.closeComp Comp.queryMsgStream, Event.wgWait] := by
    simp [stopProxyLoop, closeComps, hg]
  constructor
  · show List.Sublist _
      (stopProxyLoop parent e
        ++ (List.range e.closeCallbackCount).map Event.closeCallback
        ++ [Event.logProxyClosed])
    rw [hs]
    exact (List.sublist_append_left _ _).trans (List.sublist_append_left _ _)
  · intro i hi
    show List.Sublist _
      (stopProxyLoop parent e
        ++ (List.range e.closeCallbackCount).map Event.closeCallback
        ++ [Event.logProxyClosed])
    rw [hs]
    have h1 : List.Sublist [Event.wgWait]
        [Event.cancelLoopCtx (loopCtx parent), Event.gracefulStop,
         Event.closeComp Comp.tsoAllocator, Event.closeComp Comp.idAllocator,
         Event.closeComp Comp.segAssigner, Event.closeComp Comp.sched,
         Event.closeComp Comp.manipulationMsgStream,
         Event.closeComp Comp.queryMsgStream, Event.wgWait] := by
      exact List.sublist_append_right
        [Event.cancelLoopCtx (loopCtx parent), Event.gracefulStop,
         Event.closeComp Comp.tsoAllocator, Event.closeComp Comp.idAllocator,
         Event.closeComp Comp.segAssigner, Event.closeComp Comp.sched,
         Event.closeComp Comp.manipulationMsgStream,
         Event.closeComp Comp.queryMsgStream] [Event.wgWait]
    have h2 : List.Sublist [Event.closeCallback i]
        ((List.range e.closeCallbackCount).map Event.closeCallback) := by
      rw [List.singleton_sublist]
      exact List.mem_map.mpr ⟨i, List.mem_range.mpr hi, rfl⟩
    exact (h1.append h2).trans (List.sublist_append_left _ _)

/-- The longest possible `CreateProxy` trace (no constructor fails); every
actual `CreateProxy` trace is a prefix of it. -/
def createFull (parent : Nat) : List Event :=
  createPrefix parent
    ++ [Event.newTimestampAllocator (loopCtx parent),
        Event.newSegIDAssigner (loopCtx parent),
        Event.newTaskScheduler (loopCtx parent)]

theorem createProxy_sublist_full (parent : Nat) (e : Env) :
    List.Sublist (CreateProxy parent e).1 (createFull parent) := by
  unfold CreateProxy createFull
  dsimp only
  split_ifs
  · exact List.sublist_append_left _ _
  · exact List.Sublist.append_left (List.Sublist.cons₂ _ (List.nil_sublist _)) _
  · rw [List.append_assoc]
    exact List.Sublist.append_left
      (List.Sublist.cons₂ _ (List.Sublist.cons₂ _ (List.nil_sublist _))) _
  · simp only [List.append_assoc]
    exact List.Sublist.refl _
  · simp only [List.append_assoc]
    exact List.Sublist.refl _

theorem createFull_ctx (parent : Nat) :
    ∀ ev ∈ createFull parent, ∀ c, ctxArg ev = some c → c = loopCtx parent := by
  intro ev hev c hc
  simp only [createFull, createPrefix, List.cons_append, List.nil_append,
    List.mem_cons, List.not_mem_nil, or_false] at hev
  rcases hev with h | h | h | h | h | h | h | h | h | h | h | h <;>
    subst h <;> simp [ctxArg] at hc <;> omega

/-- Claim C3: there is a single shared cancellation signal: every component
constructed by `CreateProxy` (both message streams, the three allocators, the
scheduler) and the metadata cache warmed by `startProxy` receive the one
cancellable context `loopCtx parent` derived in `CreateProxy`, and every
`Close` cancels that context before any individual component is closed;
when the gRPC server was started, the graceful stop (the grace period for
in-flight requests) also precedes every component close. -/
theorem C3_shared_cancellation (parent : Nat) (e : Env) :
    (∀ ev ∈ (CreateProxy parent e).1, ∀ c, ctxArg ev = some c →
      c = loopCtx parent) ∧
    (e.connectMasterFails = false →
      Event.initGlobalMetaCache (loopCtx parent) ∈ (startProxy parent e).1) ∧
    (∀ cp : Comp, List.Sublist
      [Event.cancelLoopCtx (loopCtx parent), Event.closeComp cp]
      (Close parent e)) ∧
    (e.grpcServerStarted = true → ∀ cp : Comp,
      List.Sublist [Event.gracefulStop, Event.closeComp cp] (Close parent e)) := by
  refine ⟨?_, ?_, ?_, ?_⟩
  · intro ev hev c hc
    exact createFull_ctx parent ev ((createProxy_sublist_full parent e).subset hev)
      c hc
  · intro hc
    rw [startProxy_trace parent e hc]
    simp
  · intro cp
    have h0 : List.Sublist [Event.closeComp cp] (closeComps.map Event.closeComp) :=
      List.singleton_sublist.mpr
        (List.mem_map.mpr ⟨cp, by cases cp <;> simp [closeComps], rfl⟩)
    have h1 : List.Sublist [Event.closeComp cp]
        (((if e.grpcServerStarted then [Event.gracefulStop] else ([] : List Event))
            ++ closeComps.map Event.closeComp) ++ [Event.wgWait]) :=
      (h0.trans (List.sublist_append_right _ _)).trans
        (List.sublist_append_left _ _)
    have h2 : List.Sublist [Event.closeComp cp]
        (((((if e.grpcServerStarted then [Event.gracefulStop] else ([] : List Event))
              ++ closeComps.map Event.closeComp) ++ [Event.wgWait])
            ++ (List.range e.closeCallbackCount).map Event.closeCallback)
          ++ [Event.logProxyClosed]) :=
      (h1.trans (List.sublist_append_left _ _)).trans
        (List.sublist_append_left _ _)
    exact List.Sublist.cons₂ _ h2
  · intro hg cp
    have hClose : Close parent e =
        Event.cancelLoopCtx (loopCtx parent) :: Event.gracefulStop ::
          (((closeComps.map Event.closeComp ++ [Event.wgWait])
              ++ (List.range e.closeCallbackCount).map Event.closeCallback)
            ++ [Event.logProxyClosed]) := by
      simp [Close, stopProxyLoop, hg]
    rw [hClose]
    have h0 : List.Sublist [Event.closeComp cp] (closeComps.map Event.closeComp) :=
      List.singleton_sublist.mpr
        (List.mem_map.mpr ⟨cp, by cases cp <;> simp [closeComps], rfl⟩)
    exact List.Sublist.cons _
      (List.Sublist.cons₂ _
        (((h0.trans (List.sublist_append_left _ _)).trans
            (List.sublist_append_left _ _)).trans
          (List.sublist_append_left _ _)))

theorem C3_witness :
    Event.initGlobalMetaCache (loopCtx 0) ∈ (startProxy 0 envOk).1 ∧
    List.Sublist [Event.gracefulStop, Event.closeComp Comp.sched] (Close 0 envOk) :=
  ⟨(C3_shared_cancellation 0 envOk).2.1 rfl,
   (C3_shared_cancellation 0 envOk).2.2.2 rfl Comp.sched⟩

theorem filter_startCallback_range (n : Nat) :
    ((List.range n).map Event.startCallback).filter isStartCallback
      = (List.range n).map Event.startCallback :=
  List.filter_eq_self.mpr (by
    intro a ha
    rcases List.mem_map.mp ha with ⟨b, _, rfl⟩
    rfl)

theorem filter_closeCallback_range (n : Nat) :
    ((List.range n).map Event.closeCallback).filter isCloseCallback
      = (List.range n).map Event.closeCallback :=
  List.filter_eq_self.mpr (by
    intro a ha
    rcases List.mem_map.mp ha with ⟨b, _, rfl⟩
    rfl)

/-- Claim C4 counterexample: on the concrete run `Close 0 envOk` the
registered close callback is not invoked before the components are torn
down — the callback never precedes the close of the timestamp allocator (or
of any other component), because `Close` runs `stopProxyLoop` first and the
callbacks afterwards. -/
theorem C4_counterexample :
    ¬ List.Sublist [Event.closeCallback 0, Event.closeComp Comp.tsoAllocator]
        (Close 0 envOk) := by
  decide

/-- Claim C4 (amended): the start callbacks are invoked exactly once, in
registration order, after every owned component has started (though before
the endpoint goroutine is launched), and the close callbacks are invoked
exactly once, in registration order, at the end of shutdown, after every
component has been torn down. -/
theorem C4_callbacks (parent : Nat) (e : Env) :
    (e.connectMasterFails = false →
      ((startProxy parent e).1.filter isStartCallback
          = (List.range e.startCallbackCount).map Event.startCallback) ∧
      (∀ i, i < e.startCallbackCount →
        List.Sublist
          [Event.startComp Comp.manipulationMsgStream,
           Event.startComp Comp.queryMsgStream,
           Event.startComp Comp.sched,
           Event.startComp Comp.idAllocator,
           Event.startComp Comp.tsoAllocator,
           Event.startComp Comp.segAssigner,
           Event.startCallback i, Event.spawnGrpcLoop]
          (startProxy parent e).1)) ∧
    ((Close parent e).filter isCloseCallback
        = (List.range e.closeCallbackCount).map Event.closeCallback) ∧
    (∀ i, i < e.closeCallbackCount → ∀ cp : Comp,
      List.Sublist [Event.closeComp cp, Event.closeCallback i]
        (Close parent e)) := by
  refine ⟨fun hc => ⟨?_, ?_⟩, ?_, ?_⟩
  · rw [startProxy_trace parent e hc, List.filter_append, List.filter_append,
      filter_startCallback_range]
    simp [isStartCallback]
  · intro i hi
    rw [startProxy_trace parent e hc]
    have hcomps : List.Sublist
        [Event.startComp Comp.manipulationMsgStream,
         Event.startComp Comp.queryMsgStream,
         Event.startComp Comp.sched,
         Event.startComp Comp.idAllocator,
         Event.startComp Comp.tsoAllocator,
         Event.startComp Comp.segAssigner]
        [Event.dialMaster true 10, Event.setMasterClient,
         Event.initGlobalMetaCache (loopCtx parent),
         Event.startComp Comp.manipulationMsgStream,
         Event.startComp Comp.queryMsgStream,
         Event.startComp Comp.sched,
         Event.startComp Comp.idAllocator,
         Event.startComp Comp.tsoAllocator,
         Event.startComp Comp.segAssigner] :=
      List.Sublist.cons _ (List.Sublist.cons _
        (List.Sublist.cons _ (List.Sublist.refl _)))
    have hcb : List.Sublist [Event.startCallback i]
        ((List.range e.startCallbackCount).map Event.startCallback) :=
      List.singleton_sublist.mpr
        (List.mem_map.mpr ⟨i, List.mem_range.mpr hi, rfl⟩)
    have h2 : List.Sublist [Event.spawnGrpcLoop]
        [Event.wgAdd, Event.spawnGrpcLoop] :=
      List.Sublist.cons _ (List.Sublist.refl _)
    exact (hcomps.append hcb).append h2
  · cases hg : e.grpcServerStarted <;>
      · rw [show Close parent e =
            (stopProxyLoop parent e
              ++ (List.range e.closeCallbackCount).map Event.closeCallback)
              ++ [Event.logProxyClosed] from rfl,
          List.filter_append, List.filter_append, filter_closeCallback_range]
        simp [stopProxyLoop, closeComps, hg, isCloseCallback]
  · intro i hi cp
    have h0 : List.Sublist [Event.closeComp cp]
        (closeComps.map Event.closeComp) :=
      List.singleton_sublist.mpr
        (List.mem_map.mpr ⟨cp, by cases cp <;> simp [closeComps], rfl⟩)
    have ha : List.Sublist [Event.closeComp cp] (stopProxyLoop parent e) :=
      (h0.trans (List.sublist_append_right _ _)).trans
        (List.sublist_append_left _ _)
    have hcb : List.Sublist [Event.closeCallback i]
        ((List.range e.closeCallbackCount).map Event.closeCallback) :=
      List.singleton_sublist.mpr
        (List.mem_map.mpr ⟨i, List.mem_range.mpr hi, rfl⟩)
    exact (ha.append hcb).trans (List.sublist_append_left _ _)

theorem C4_witness :
    (envOk.connectMasterFails = false ∧ 0 < envOk.startCallbackCount ∧
      0 < envOk.closeCallbackCount) ∧
    List.Sublist
      [Event.startComp Comp.manipulationMsgStream,
       Event.startComp Comp.queryMsgStream,
       Event.startComp Comp.sched,
       Event.startComp Comp.idAllocator,
       Event.startComp Comp.tsoAllocator,
       Event.startComp Comp.segAssigner,
       Event.startCallback 0, Event.spawnGrpcLoop]
      (startProxy 0 envOk).1 ∧
    List.Sublist [Event.closeComp Comp.sched, Event.closeCallback 0]
      (Close 0 envOk) :=
  ⟨⟨rfl, by decide, by decide⟩,
   ((C4_callbacks 0 envOk).1 rfl).2 0 (by decide),
   (C4_callbacks 0 envOk).2.2 0 (by decide) Comp.sched⟩

/-- Claim C5: every startup failure is fatal — an unreachable master makes
`Start` return a non-nil error to its caller, and a listener bind failure
makes the background routine exit the whole process (`log.Fatalf`) rather
than continue in a degraded state. -/
theorem C5_startup_failures_fatal (parent : Nat) (e : Env) :
    (e.connectMasterFails = true → (Start parent e).2 = Except.error ()) ∧
    (e.listenFails = true → (grpcLoop e).2 = GrpcExit.fatalExit) := by
  constructor
  · intro h
    simp [Start, startProxy, connectMaster, h]
  · intro h
    simp [grpcLoop, h]

theorem C5_witness :
    (Start 0 envConnListenFail).2 = Except.error () ∧
    (grpcLoop envConnListenFail).2 = GrpcExit.fatalExit :=
  ⟨(C5_startup_failures_fatal 0 envConnListenFail).1 rfl,
   (C5_startup_failures_fatal 0 envConnListenFail).2 rfl⟩

theorem filter_dial_startCallback (n : Nat) :
    ((List.range n).map Event.startCallback).filter isDialMaster = [] := by
  rw [List.filter_eq_nil_iff]
  intro a ha
  rcases List.mem_map.mp ha with ⟨b, _, rfl⟩
  simp [isDialMaster]

theorem filter_dial_closeCallback (n : Nat) :
    ((List.range n).map Event.closeCallback).filter isDialMaster = [] := by
  rw [List.filter_eq_nil_iff]
  intro a ha
  rcases List.mem_map.mp ha with ⟨b, _, rfl⟩
  simp [isDialMaster]

/-- Claim C6: the master connection is established at startup by a blocking
dial with a fixed 10-second timeout, `startProxy` dials exactly once, and no
proxy operation — `CreateProxy`, `startProxy`, the gRPC loop or `Close` —
ever closes the master connection or dials it again. -/
theorem C6_master_connection_lifetime (parent : Nat) (e : Env) :
    (connectMaster e).1.head? = some (Event.dialMaster true 10) ∧
    (startProxy parent e).1.filter isDialMaster = [Event.dialMaster true 10] ∧
    Event.closeMasterConn ∉ (CreateProxy parent e).1 ∧
    Event.closeMasterConn ∉ (startProxy parent e).1 ∧
    Event.closeMasterConn ∉ (grpcLoop e).1 ∧
    Event.closeMasterConn ∉ Close parent e ∧
    (Close parent e).filter isDialMaster = [] ∧
    (grpcLoop e).1.filter isDialMaster = [] := by
  refine ⟨?_, ?_, ?_, ?_, ?_, ?_, ?_, ?_⟩
  · cases hc : e.connectMasterFails <;> simp [connectMaster, hc]
  · cases hc : e.connectMasterFails
    · rw [startProxy_trace parent e hc, List.filter_append, List.filter_append,
        filter_dial_startCallback]
      simp [isDialMaster]
    · simp [startProxy, connectMaster, hc, isDialMaster]
  · intro h
    have hnot : Event.closeMasterConn ∉ createFull parent := by
      simp [createFull, createPrefix]
    exact hnot ((createProxy_sublist_full parent e).subset h)
  · cases hc : e.connectMasterFails
    · rw [startProxy_trace parent e hc]
      simp
    · simp [startProxy, connectMaster, hc]
  · unfold grpcLoop
    dsimp only
    split_ifs <;> simp
  · cases hg : e.grpcServerStarted <;>
      simp [Close, stopProxyLoop, closeComps, hg]
  · cases hg : e.grpcServerStarted <;>
      · rw [show Close parent e =
            (stopProxyLoop parent e
              ++ (List.range e.closeCallbackCount).map Event.closeCallback)
              ++ [Event.logProxyClosed] from rfl,
          List.filter_append, List.filter_append, filter_dial_closeCallback]
        simp [stopProxyLoop, closeComps, hg, isDialMaster]
  · unfold grpcLoop
    dsimp only
    split_ifs <;> simp [isDialMaster]

/-- Claim C7: shutdown never fails silently — every invocation of `Close`
invokes the `Close` of every owned component (timestamp allocator,
identifier allocator, segment assigner, scheduler, both message streams)
unconditionally, for every environment (including ones where components fail
to close cleanly, which the code cannot observe), and the run always ends by
logging completion ("proxy closed."). -/
theorem C7_shutdown_completes (parent : Nat) (e : Env) :
    (∀ cp : Comp, Event.closeComp cp ∈ Close parent e) ∧
    (Close parent e).getLast? = some Event.logProxyClosed := by
  constructor
  · intro cp
    have h0 : Event.closeComp cp ∈ closeComps.map Event.closeComp :=
      List.mem_map.mpr ⟨cp, by cases cp <;> simp [closeComps], rfl⟩
    exact List.mem_append_left _ (List.mem_append_left _
      (List.mem_append_left _ (List.mem_append_right _ h0)))
  · show ((stopProxyLoop parent e
        ++ (List.range e.closeCallbackCount).map Event.closeCallback)
        ++ [Event.logProxyClosed]).getLast? = some Event.logProxyClosed
    simp

/-- Claim C8: startup is atomic on master-connection failure — if the dial
fails, `startProxy` returns the error immediately, the trace consists of the
dial attempt and the failure log only, and no component start, no metadata
cache warm-up, no start callback and no endpoint launch has occurred. -/
theorem C8_atomic_connect_failure (parent : Nat) (e : Env)
    (h : e.connectMasterFails = true) :
    (startProxy parent e).2 = Except.error () ∧
    (startProxy parent e).1 =
      [Event.dialMaster true 10, Event.logConnectFailed] ∧
    (∀ cp : Comp, Event.startComp cp ∉ (startProxy parent e).1) ∧
    (∀ i : Nat, Event.startCallback i ∉ (startProxy parent e).1) ∧
    Event.spawnGrpcLoop ∉ (startProxy parent e).1 ∧
    (∀ c : Nat, Event.initGlobalMetaCache c ∉ (startProxy parent e).1) := by
  refine ⟨?_, ?_, ?_, ?_, ?_, ?_⟩ <;> simp [startProxy, connectMaster, h]

theorem C8_witness :
    (startProxy 0 envConnFail).2 = Except.error () ∧
    Event.spawnGrpcLoop ∉ (startProxy 0 envConnFail).1 :=
  ⟨(C8_atomic_connect_failure 0 envConnFail rfl).1,
   (C8_atomic_connect_failure 0 envConnFail rfl).2.2.2.2.1⟩

/-- Claim C9: `CreateProxy` handles construction failures asymmetrically — a
failing identifier-allocator, timestamp-allocator or task-scheduler
constructor makes it return `(nil, error)`, while a failing
segment-identifier-assigner constructor makes it panic. -/
theorem C9_createProxy_failure_asymmetry (parent : Nat) (e : Env) :
    (e.newIDAllocatorFails = true →
      (CreateProxy parent e).2 = CreateResult.errReturn) ∧
    (e.newIDAllocatorFails = false → e.newTimestampAllocatorFails = true →
      (CreateProxy parent e).2 = CreateResult.errReturn) ∧
    (e.newIDAllocatorFails = false → e.newTimestampAllocatorFails = false →
      e.newSegIDAssignerFails = true →
      (CreateProxy parent e).2 = CreateResult.panicked) ∧
    (e.newIDAllocatorFails = false → e.newTimestampAllocatorFails = false →
      e.newSegIDAssignerFails = false → e.newTaskSchedulerFails = true →
      (CreateProxy parent e).2 = CreateResult.errReturn) ∧
    (e.newIDAllocatorFails = false → e.newTimestampAllocatorFails = false →
      e.newSegIDAssignerFails = false → e.newTaskSchedulerFails = false →
      (CreateProxy parent e).2 = CreateResult.ok) := by
  refine ⟨?_, ?_, ?_, ?_, ?_⟩ <;> intros <;> simp_all [CreateProxy]

theorem C9_witness :
    envSegFail.newSegIDAssignerFails = true ∧
    (CreateProxy 0 envSegFail).2 = CreateResult.panicked :=
  ⟨rfl, (C9_createProxy_failure_asymmetry 0 envSegFail).2.2.1 rfl rfl rfl⟩

/-- Claim C10: `Start` can report success before the endpoint exists — after
a successful master connection it returns nil having merely launched the
listener goroutine, the goroutine listens on the hard-coded address ":5053",
and a bind or serve failure terminates the whole process from that goroutine
(`log.Fatalf`); the error is never returned through `Start`, whose result is
`ok` for every environment with a reachable master, whatever the listener
flags are. -/
theorem C10_start_returns_before_endpoint (parent : Nat) (e : Env)
    (h : e.connectMasterFails = false) :
    (Start parent e).2 = Except.ok () ∧
    Event.spawnGrpcLoop ∈ (Start parent e).1 ∧
    Event.netListen ":5053" ∈ (grpcLoop e).1 ∧
    (e.listenFails = true → (grpcLoop e).2 = GrpcExit.fatalExit) ∧
    (e.serveFails = true → (grpcLoop e).2 = GrpcExit.fatalExit) := by
  refine ⟨?_, ?_, ?_, ?_, ?_⟩
  · exact (startProxy_ok_iff parent e).mpr h
  · show Event.spawnGrpcLoop ∈ (startProxy parent e).1
    rw [startProxy_trace parent e h]
    simp
  · unfold grpcLoop
    dsimp only
    split_ifs <;> simp
  · intro hl
    simp [grpcLoop, hl]
  · intro hs
    cases hl : e.listenFails <;> simp [grpcLoop, hl, hs]

theorem C10_witness :
    (Start 0 envListenFail).2 = Except.ok () ∧
    (grpcLoop envListenFail).2 = GrpcExit.fatalExit :=
  ⟨(C10_start_returns_before_endpoint 0 envListenFail rfl).1,
   (C10_start_returns_before_endpoint 0 envListenFail rfl).2.2.2.1 rfl⟩

theorem C2_witness :
    (envOk.grpcServerStarted = true ∧ 0 < envOk.closeCallbackCount) ∧
    List.Sublist [Event.wgWait, Event.closeCallback 0] (Close 0 envOk) :=
  ⟨⟨rfl, by decide⟩, (C2_shutdown_order 0 envOk rfl).2 0 (by decide)⟩

theorem C1_witness :
    (Start 0 envOk).2 = Except.ok () ∧
    List.Sublist
      [Event.dialMaster true 10,
       Event.initGlobalMetaCache (loopCtx 0),
       Event.startComp Comp.manipulationMsgStream,
       Event.startComp Comp.queryMsgStream,
       Event.startComp Comp.sched,
       Event.startComp Comp.idAllocator,
       Event.startComp Comp.tsoAllocator,
       Event.startComp Comp.segAssigner,
       Event.spawnGrpcLoop]
      (Start 0 envOk).1 :=
  ⟨rfl, C1_startup_order 0 envOk rfl⟩
